import Mathlib

/-!
Verification of the tenant-scoped query and aggregation engine of the
Rita dashboard API.  The JavaScript route handlers are shallowly embedded
as pure Lean functions over an explicit in-memory database state; SQL
queries over that state become list filters, folds and sorts, and the
HTTP outcomes become explicit result types.  Machine numbers are modelled
as Nat/Int/Rat.  Definitions come first, then the lemmas and theorems.
-/

namespace Rita

/-! # Definitions -/

/-! ## Data model (tables of the relational store) -/

structure Company where
  id : Nat
  name : String
  deriving Repr, DecidableEq

structure Contact where
  id : Nat
  name : String
  phoneNumber : String
  email : String
  createdAt : Nat
  deriving Repr, DecidableEq

structure Session where
  id : Nat
  companyId : Nat
  contactId : Nat
  status : Int
  createdAt : Nat
  deriving Repr, DecidableEq

/-- A row of the `conversations` table (a single message of a session). -/
structure Message where
  id : Nat
  sessionId : Nat
  companyId : Nat
  sender : Nat
  content : String
  createdAt : Nat
  deriving Repr, DecidableEq

structure Lead where
  id : Nat
  companyId : Nat
  contactId : Nat
  name : String
  email : String
  phoneNumber : String
  location : String
  leadSource : String
  channel : String
  status : Int
  createdAt : Nat
  deriving Repr, DecidableEq

structure TransferredLead where
  id : Nat
  leadId : Nat
  sessionId : Nat
  companyId : Nat
  createdAt : Nat
  deriving Repr, DecidableEq

structure StockItem where
  id : Nat
  empresa : String
  brand : String
  model : String
  version : String
  licensePlate : String
  vin : String
  category : String
  tags : String
  location : String
  price : Rat
  createdAt : Nat
  deriving Repr, DecidableEq

structure KnowledgeEntry where
  id : Nat
  contactId : Nat
  sessionId : Nat
  companyId : Nat
  key : String
  value : String
  createdAt : Nat
  deriving Repr, DecidableEq

structure TestMetricRow where
  companyId : Nat
  month : Nat
  totalConversations : Nat
  transferredLeads : Nat
  totalLeads : Nat
  qualificationPercentage : Rat
  deriving Repr, DecidableEq

structure DB where
  companies : List Company
  contacts : List Contact
  /-- the `contact_company` many-to-many join rows `(contact_id, company_id)` -/
  contactCompany : List (Nat × Nat)
  sessions : List Session
  messages : List Message
  leads : List Lead
  transferred : List TransferredLead
  stock : List StockItem
  knowledge : List KnowledgeEntry
  testMetrics : List TestMetricRow
  deriving Repr, DecidableEq

/-! ## JavaScript and SQL primitives -/

/-- JS `parseInt(s)` (radix 10): skip leading whitespace, optional sign,
read the maximal run of leading decimal digits; `NaN` (here `none`) when
that run is empty.  Trailing non-digit characters are ignored. -/
def jsParseInt (s : String) : Option Int :=
  let cs := (s.data.dropWhile Char.isWhitespace)
  let signRest : Int × List Char :=
    match cs with
    | '-' :: r => (-1, r)
    | '+' :: r => (1, r)
    | r => (1, r)
  let ds := signRest.2.takeWhile Char.isDigit
  if ds.isEmpty then none
  else some (signRest.1 * (ds.foldl (fun acc c => acc * 10 + (c.toNat - 48)) 0 : Nat))

/-- JS truthiness for an optional string value: `undefined` and `''` are
falsy, every other string is truthy. -/
def jsTruthy (s : Option String) : Option String :=
  match s with
  | some s => if s = "" then none else some s
  | none => none

/-- JS `String.prototype.trim`: strip leading and trailing whitespace. -/
def jsTrim (s : String) : String :=
  ⟨((s.data.dropWhile Char.isWhitespace).reverse.dropWhile Char.isWhitespace).reverse⟩

/-- JS `Math.round`: round half toward positive infinity. -/
def jsMathRound (x : Rat) : Int := ⌊x + 1 / 2⌋

/-- Two-decimal rounding as done in the code: `Math.round(x * 100) / 100`. -/
def roundTwo (x : Rat) : Rat := (jsMathRound (x * 100) : Rat) / 100

/-- Does `needle` occur at the start of `hay`? -/
def listStarts [BEq α] : List α → List α → Bool
  | [], _ => true
  | _ :: _, [] => false
  | a :: as, b :: bs => a == b && listStarts as bs

/-- Does `needle` occur anywhere inside `hay`? -/
def listHasSub [BEq α] (needle hay : List α) : Bool :=
  (List.range (hay.length + 1)).any (fun i => listStarts needle (hay.drop i))

/-- `field ILIKE '%term%'`: case-insensitive substring match. -/
def ilikeContains (term field : String) : Bool :=
  listHasSub (term.data.map Char.toLower) (field.data.map Char.toLower)

/-- First row of an `ORDER BY key DESC LIMIT 1` over rows in table order:
the earliest-stored row among those with maximal key (the SQL specifies
no tie-break beyond the sort key). -/
def latestBy (key : α → Nat) : List α → Option α
  | [] => none
  | a :: as =>
    match latestBy key as with
    | none => some a
    | some m => if key a < key m then some m else some a

/-- Stable insertion into a sorted list (model of SQL ORDER BY). -/
def insertBy (le : α → α → Bool) (a : α) : List α → List α
  | [] => [a]
  | b :: bs => if le a b then a :: b :: bs else b :: insertBy le a bs

/-- Stable insertion sort (model of SQL ORDER BY). -/
def sortBy (le : α → α → Bool) : List α → List α
  | [] => []
  | a :: as => insertBy le a (sortBy le as)

/-- A generic route outcome. -/
inductive RouteResult (α : Type) where
  | badRequest (message : String)
  | notFound (message : String)
  | ok (value : α)
  deriving Repr, DecidableEq

/-! ## Tenant Guard (`requireCompanyAccess` in middleware/auth.js) -/

inductive GuardOutcome where
  | badRequest (message : String)
  | ok (companyId : Int)
  deriving Repr, DecidableEq

/-- `req.params.companyId || req.query.company_id || req.body.company_id`:
the first truthy candidate, in that priority order. -/
def candidateCompanyId (pathId queryId bodyId : Option String) : Option String :=
  match jsTruthy pathId with
  | some s => some s
  | none =>
    match jsTruthy queryId with
    | some s => some s
    | none => jsTruthy bodyId

/-- The company-access middleware: rejects a missing or literal
`"null"`/`"undefined"` identifier, rejects an identifier `parseInt`
cannot read, and otherwise attaches the parsed integer. -/
def requireCompanyAccess (pathId queryId bodyId : Option String) : GuardOutcome :=
  match candidateCompanyId pathId queryId bodyId with
  | none => .badRequest "Valid Company ID required"
  | some cid =>
    if cid = "null" ∨ cid = "undefined" then
      .badRequest "Valid Company ID required"
    else
      match jsParseInt cid with
      | none => .badRequest "Company ID must be a valid number"
      | some n => .ok n

/-! ## Realtime growth metric (routes/metrics.js, GET /api/metrics/realtime) -/

/-- The raw growth expression of the realtime-metrics handler. -/
def growthRaw (today yesterday : Nat) : Rat :=
  if 0 < yesterday then ((today : Rat) - (yesterday : Rat)) / (yesterday : Rat) * 100
  else if 0 < today then 100 else 0

/-- `growth.conversations` / `growth.transfers` in the realtime response. -/
def realtimeGrowth (today yesterday : Nat) : Rat := roundTwo (growthRaw today yesterday)

/-! ## Session status update (routes/sessions.js, PUT /api/sessions/:id/status) -/

inductive UpdateOutcome where
  | badRequest (message : String)
  | notFound
  | ok (id : Nat) (status : Int)
  deriving Repr, DecidableEq

/-- The JSON `status` field of the request body: absent, a number
(modelled as a rational so non-integers are representable), or a
non-numeric value (for which `Number.isInteger` is false). -/
inductive BodyVal where
  | undef
  | num (q : Rat)
  | nonNum
  deriving Repr, DecidableEq

/-- The status-update handler: validates `Number.isInteger(status)` and
`0 ≤ status ≤ 4`, then runs the `UPDATE ... WHERE id = $2 RETURNING *`. -/
def updateSessionStatus (db : DB) (sid : Nat) (body : BodyVal) : UpdateOutcome × DB :=
  match body with
  | .undef => (.badRequest "Session ID and status are required", db)
  | .nonNum => (.badRequest "Status must be an integer between 0 and 4", db)
  | .num q =>
    if ¬ q.den = 1 ∨ q < 0 ∨ 4 < q then
      (.badRequest "Status must be an integer between 0 and 4", db)
    else if db.sessions.any (fun s => s.id == sid) then
      (.ok sid q.num,
        { db with sessions :=
            db.sessions.map fun s => if s.id == sid then { s with status := q.num } else s })
    else (.notFound, db)

/-- The status a subsequent read reports for a session (`s.status` in the
session-details query). -/
def readSessionStatus (db : DB) (sid : Nat) : Option Int :=
  (db.sessions.find? (fun s => s.id == sid)).map (·.status)

/-! ## Tenant deletion (routes/companies.js, DELETE /api/companies/:id) -/

inductive DeleteOutcome where
  | conflict (conversations leads sessions : Nat)
  | notFound
  | ok
  deriving Repr, DecidableEq

/-- The dependent-row check: counts of conversations, leads and sessions
referencing the company. -/
def dependentCounts (db : DB) (cid : Nat) : Nat × Nat × Nat :=
  (db.messages.countP (fun m => m.companyId == cid),
   db.leads.countP (fun l => l.companyId == cid),
   db.sessions.countP (fun s => s.companyId == cid))

/-- The delete handler: Conflict with the three counts while any
dependent row exists; otherwise `DELETE ... RETURNING id` (404 when the
company does not exist). -/
def deleteCompany (db : DB) (cid : Nat) : DeleteOutcome × DB :=
  let c := dependentCounts db cid
  if 0 < c.1 + c.2.1 + c.2.2 then
    (.conflict c.1 c.2.1 c.2.2, db)
  else if db.companies.any (fun co => co.id == cid) then
    (.ok, { db with companies := db.companies.filter (fun co => !(co.id == cid)) })
  else (.notFound, db)

/-- `GET /api/companies/:id` (the subsequent read of the tenant). -/
def getCompany (db : DB) (cid : Nat) : Option Company :=
  db.companies.find? (fun co => co.id == cid)

/-! ## Historical metrics (routes/metrics.js, GET /api/metrics/historical) -/

/-- Month index of a timestamp; timestamps count days and a month is
modelled as a fixed 30-day block (the calendar details of
`date_trunc('month', ...)` are irrelevant to the properties proved
here, only the grouping structure matters). -/
def monthOf (t : Nat) : Nat := t / 30

structure MonthlyAggregate where
  month : Nat
  totalConversations : Nat
  transferredLeads : Nat
  transferredSessions : Nat
  qualificationPercentage : Rat
  deriving Repr, DecidableEq

/-- The `months` scaffold CTE: the `monthsBack` month starts ending at the
current month, ascending. -/
def monthsScaffold (currentMonth monthsBack : Nat) : List Nat :=
  ((List.range monthsBack).map (fun i => currentMonth - i)).reverse

/-- The real monthly aggregation (the fallback CTE query): per scaffold
month, session count, transferred-lead count, distinct transferred
sessions, and the ROUND(.., 2) qualification percentage. -/
def realMonthlyAggregates (db : DB) (cid currentMonth monthsBack : Nat) :
    List MonthlyAggregate :=
  (monthsScaffold currentMonth monthsBack).map fun m =>
    let tc := db.sessions.countP (fun s => s.companyId == cid && monthOf s.createdAt == m)
    let tl := db.transferred.countP (fun t => t.companyId == cid && monthOf t.createdAt == m)
    let ts := ((db.transferred.filter
        (fun t => t.companyId == cid && monthOf t.createdAt == m)).map
          (fun t => t.sessionId)).dedup.length
    { month := m, totalConversations := tc, transferredLeads := tl,
      transferredSessions := ts,
      qualificationPercentage := if 0 < tc then roundTwo ((ts : Rat) / (tc : Rat) * 100) else 0 }

inductive HistoricalResponse where
  | fromTest (rows : List TestMetricRow)
  | fromReal (rows : List MonthlyAggregate)
  deriving Repr, DecidableEq

/-- `const monthsBack = parseInt(months) || 6`. -/
def monthsBackOf (months : Option String) : Int :=
  match months with
  | none => 6
  | some s =>
    match jsParseInt s with
    | none => 6
    | some n => if n = 0 then 6 else n

/-- The historical-metrics handler: serve the tenant's `test_metrics`
rows (ordered by month, limited to `monthsBack`) when any exist,
otherwise run the real aggregation. -/
def historicalMetrics (db : DB) (cid monthsBack currentMonth : Nat) : HistoricalResponse :=
  let testRows := (sortBy (fun a b => decide (a.month ≤ b.month))
      (db.testMetrics.filter (fun r => r.companyId == cid))).take monthsBack
  if 0 < testRows.length then .fromTest testRows
  else .fromReal (realMonthlyAggregates db cid currentMonth monthsBack)

/-! ## Dynamic predicate building and parameter alignment
(GET /api/leads in routes/leads.js and GET /api/conversations in
routes/conversations.js).  A query is abstracted by the ordered list of
positional placeholders its SQL text references and the parameter values
supplied at execute time. -/

inductive PValue where
  | nat (n : Nat)
  | int (i : Int)
  | str (s : String)
  deriving Repr, DecidableEq

structure BuiltQuery where
  /-- the `$k` indices referenced by the SQL text, in order of occurrence -/
  placeholders : List Nat
  /-- the positional parameter values supplied to the driver -/
  params : List PValue
  deriving Repr, DecidableEq

/-- JS `String.prototype.replace` with a string pattern: replaces only the
FIRST occurrence (here, of a placeholder index). -/
def replaceFirst (old new : Nat) : List Nat → List Nat
  | [] => []
  | x :: xs => if x = old then new :: xs else x :: replaceFirst old new xs

/-- PostgreSQL accepts a parameterized statement iff the supplied
parameter count equals the statement's parameter count (the highest `$k`
referenced) and every `$k` up to that maximum occurs in the text
(otherwise its type is indeterminate). -/
def pgAccepts (q : BuiltQuery) : Bool :=
  q.params.length = q.placeholders.foldr max 0 &&
    (List.range (q.placeholders.foldr max 0)).all (fun k => q.placeholders.contains (k + 1))

/-- The leads-listing filter construction: `paramIndex` starts at 4, the
status branch appends `$paramIndex` and increments, the search branch
appends `$paramIndex` three times without incrementing.  Returns
(status placeholders, search placeholders, queryParams, final paramIndex). -/
def leadsBuild (cid limit offset : Nat) (status : Option Int) (search : Option String) :
    List Nat × List Nat × List PValue × Nat :=
  let queryParams0 : List PValue := [.nat cid, .nat limit, .nat offset]
  let paramIndex0 := 4
  let step1 : List Nat × List PValue × Nat :=
    match status with
    | some st => ([paramIndex0], queryParams0 ++ [.int st], paramIndex0 + 1)
    | none => ([], queryParams0, paramIndex0)
  let step2 : List Nat × List PValue :=
    match search with
    | some s => ([step1.2.2, step1.2.2, step1.2.2], step1.2.1 ++ [.str ("%" ++ s ++ "%")])
    | none => ([], step1.2.1)
  (step1.1, step2.1, step2.2, step1.2.2)

/-- The leads page query: `WHERE l.company_id = $1`, the two filters,
`LIMIT $2 OFFSET $3`. -/
def leadsPageQuery (cid limit offset : Nat) (status : Option Int) (search : Option String) :
    BuiltQuery :=
  let b := leadsBuild cid limit offset status search
  ⟨[1] ++ b.1 ++ b.2.1 ++ [2, 3], b.2.2.1⟩

/-- The leads count query: `countParams = queryParams.slice(0, paramIndex - 2)`
(the comment in the source says it removes limit and offset), the filters
renumbered via single-occurrence string replace, and the filter values
re-appended. -/
def leadsCountQuery (cid limit offset : Nat) (status : Option Int) (search : Option String) :
    BuiltQuery :=
  let b := leadsBuild cid limit offset status search
  let countParams := b.2.2.1.take (b.2.2.2 - 2)
  let statusF := replaceFirst (b.2.2.2 - 1) (countParams.length + 1) b.1
  let searchF := replaceFirst b.2.2.2
    (countParams.length + (if status.isSome then 2 else 1)) b.2.1
  ⟨[1] ++ statusF ++ searchF,
    countParams ++ (match status with | some st => [.int st] | none => [])
      ++ (match search with | some s => [.str ("%" ++ s ++ "%")] | none => [])⟩

/-- The conversations-listing filter construction: the search branch uses
`$paramIndex` three times and increments, the status branch uses the next
`$paramIndex` without incrementing.  Returns (search placeholders,
status placeholders, queryParams, final paramIndex). -/
def convBuild (cid limit offset : Nat) (search : Option String) (status : Option Int) :
    List Nat × List Nat × List PValue × Nat :=
  let queryParams0 : List PValue := [.nat cid, .nat limit, .nat offset]
  let paramIndex0 := 4
  let step1 : List Nat × List PValue × Nat :=
    match search with
    | some s => ([paramIndex0, paramIndex0, paramIndex0],
        queryParams0 ++ [.str ("%" ++ s ++ "%")], paramIndex0 + 1)
    | none => ([], queryParams0, paramIndex0)
  let step2 : List Nat × List PValue :=
    match status with
    | some st => ([step1.2.2], step1.2.1 ++ [.int st])
    | none => ([], step1.2.1)
  (step1.1, step2.1, step2.2, step1.2.2)

/-- The conversations page query. -/
def convPageQuery (cid limit offset : Nat) (search : Option String) (status : Option Int) :
    BuiltQuery :=
  let b := convBuild cid limit offset search status
  ⟨[1] ++ b.1 ++ b.2.1 ++ [2, 3], b.2.2.1⟩

/-- The conversations count query:
`searchFilter.replace('$'+(paramIndex-1), '$2')` and
`statusFilter.replace('$'+paramIndex, '$'+(search ? 3 : 2))`, with the
parameter list rebuilt from scratch. -/
def convCountQuery (cid limit offset : Nat) (search : Option String) (status : Option Int) :
    BuiltQuery :=
  let b := convBuild cid limit offset search status
  let searchF := replaceFirst (b.2.2.2 - 1) 2 b.1
  let statusF := replaceFirst b.2.2.2 (if search.isSome then 3 else 2) b.2.1
  ⟨[1] ++ searchF ++ statusF,
    (match search with
     | some s => [PValue.nat cid, .str ("%" ++ s ++ "%")]
     | none => [PValue.nat cid])
      ++ (match status with | some st => [.int st] | none => [])⟩

/-! ## Search endpoints (routes/search.js) -/

/-- Guard shared by every /api/search/* handler:
`!searchQuery || searchQuery.trim().length < 2`. -/
def searchTooShort (q : Option String) : Bool :=
  match q with
  | none => true
  | some s => s == "" || (jsTrim s).length < 2

/-- GET /api/search/contacts. -/
def searchContacts (db : DB) (q : Option String) (companyId : Option Nat) (limit : Nat) :
    RouteResult (List Contact) :=
  match q with
  | none => .badRequest "Search query must be at least 2 characters long"
  | some s =>
    if s == "" || (jsTrim s).length < 2 then
      .badRequest "Search query must be at least 2 characters long"
    else
      let term := jsTrim s
      let rows := db.contacts.filter (fun c =>
        (ilikeContains term c.name || ilikeContains term c.email ||
          ilikeContains term c.phoneNumber) &&
        (match companyId with
         | some cid => db.contactCompany.any (fun cc => cc.1 == c.id && cc.2 == cid)
         | none => true))
      .ok ((sortBy (fun a b => decide (b.createdAt ≤ a.createdAt)) rows).take limit)

/-- GET /api/search/conversations. -/
def searchConversationsRoute (db : DB) (q : Option String) (cid : Nat) (limit : Nat)
    (sessionStatus : Option Int) : RouteResult (List Message) :=
  match q with
  | none => .badRequest "Search query must be at least 2 characters long"
  | some s =>
    if s == "" || (jsTrim s).length < 2 then
      .badRequest "Search query must be at least 2 characters long"
    else
      let term := jsTrim s
      let rows := db.messages.filter (fun m =>
        db.sessions.any (fun ss => ss.id == m.sessionId && ss.companyId == cid &&
          (match sessionStatus with | some st => ss.status == st | none => true)) &&
        ilikeContains term m.content)
      .ok ((sortBy (fun a b => decide (b.createdAt ≤ a.createdAt)) rows).take limit)

/-- GET /api/search/leads. -/
def searchLeadsRoute (db : DB) (q : Option String) (cid : Nat) (limit : Nat)
    (leadSource channel : Option String) : RouteResult (List Lead) :=
  match q with
  | none => .badRequest "Search query must be at least 2 characters long"
  | some s =>
    if s == "" || (jsTrim s).length < 2 then
      .badRequest "Search query must be at least 2 characters long"
    else
      let term := jsTrim s
      let rows := db.leads.filter (fun l =>
        l.companyId == cid &&
        (ilikeContains term l.name || ilikeContains term l.email ||
          ilikeContains term l.phoneNumber || ilikeContains term l.location ||
          (match db.contacts.find? (fun c => c.id == l.contactId) with
           | some c => ilikeContains term c.name
           | none => false)) &&
        (match leadSource with | some v => l.leadSource == v | none => true) &&
        (match channel with | some v => l.channel == v | none => true))
      .ok ((sortBy (fun a b => decide (b.createdAt ≤ a.createdAt)) rows).take limit)

/-- GET /api/search/stock: the short-search guard runs BEFORE the company
lookup, which may 404. -/
def searchStockRoute (db : DB) (q : Option String) (cid : Nat) (limit : Nat) :
    RouteResult (List StockItem) :=
  match q with
  | none => .badRequest "Search query must be at least 2 characters long"
  | some s =>
    if s == "" || (jsTrim s).length < 2 then
      .badRequest "Search query must be at least 2 characters long"
    else
      match db.companies.find? (fun co => co.id == cid) with
      | none => .notFound "Company not found"
      | some co =>
        let term := jsTrim s
        let rows := db.stock.filter (fun v =>
          v.empresa == co.name &&
          (ilikeContains term v.brand || ilikeContains term v.model ||
            ilikeContains term v.version || ilikeContains term v.licensePlate ||
            ilikeContains term v.vin || ilikeContains term v.category ||
            ilikeContains term v.tags || ilikeContains term v.location))
        .ok ((sortBy (fun a b => decide (b.createdAt ≤ a.createdAt)) rows).take limit)

/-- GET /api/search/global: three capped sub-searches. -/
def searchGlobalRoute (db : DB) (q : Option String) (cid : Nat) :
    RouteResult (List Contact × List Message × List Lead) :=
  match q with
  | none => .badRequest "Search query must be at least 2 characters long"
  | some s =>
    if s == "" || (jsTrim s).length < 2 then
      .badRequest "Search query must be at least 2 characters long"
    else
      let term := jsTrim s
      let cs := (db.contacts.filter (fun c =>
        db.contactCompany.any (fun cc => cc.1 == c.id && cc.2 == cid) &&
        (ilikeContains term c.name || ilikeContains term c.email ||
          ilikeContains term c.phoneNumber))).take 5
      let ms := (db.messages.filter (fun m =>
        db.sessions.any (fun ss => ss.id == m.sessionId && ss.companyId == cid) &&
        ilikeContains term m.content)).take 5
      let ls := (db.leads.filter (fun l =>
        l.companyId == cid &&
        (ilikeContains term l.name || ilikeContains term l.email ||
          ilikeContains term l.phoneNumber))).take 5
      .ok (cs, ms, ls)

/-! ## Conversations listing and latest-message enrichment
(routes/conversations.js, GET /api/conversations) -/

/-- Messages of a session, in table order. -/
def messagesOf (db : DB) (sid : Nat) : List Message :=
  db.messages.filter (fun m => m.sessionId == sid)

/-- The correlated `LATERAL (... ORDER BY created_at DESC LIMIT 1)`. -/
def lastMsg (db : DB) (sid : Nat) : Option Message :=
  latestBy (fun m => m.createdAt) (messagesOf db sid)

/-- The correlated `LATERAL (SELECT COUNT(*) ...)`. -/
def msgCount (db : DB) (sid : Nat) : Nat := (messagesOf db sid).length

/-- The search filter of the conversations listing matches the joined
contact's name, phone or email (NULL contact matches nothing). -/
def contactMatches (db : DB) (s : Session) (term : String) : Bool :=
  match db.contacts.find? (fun c => c.id == s.contactId) with
  | some c => ilikeContains term c.name || ilikeContains term c.phoneNumber ||
      ilikeContains term c.email
  | none => false

structure ConvRow where
  sessionId : Nat
  status : Int
  sessionCreatedAt : Nat
  contactId : Option Nat
  lastMessage : Option Message
  totalMessages : Nat
  deriving Repr, DecidableEq

/-- The conversations listing: note it applies the raw `search` value
with NO minimum-length check, builds the row per session via the two
correlated lateral lookups, orders by `s.id` and pages the result. -/
def conversationsListing (db : DB) (cid : Nat) (page limit : Nat) (search : Option String)
    (status : Option Int) : RouteResult (List ConvRow) :=
  let base := db.sessions.filter (fun s => s.companyId == cid &&
      (match search with | some q => contactMatches db s q | none => true) &&
      (match status with | some st => s.status == st | none => true))
  let ordered := sortBy (fun a b => decide (a.id ≤ b.id)) base
  .ok (((ordered.map (fun s =>
      { sessionId := s.id, status := s.status, sessionCreatedAt := s.createdAt,
        contactId := (db.contacts.find? (fun c => c.id == s.contactId)).map (fun c => c.id),
        lastMessage := lastMsg db s.id,
        totalMessages := msgCount db s.id : ConvRow })).drop ((page - 1) * limit)).take limit)

/-- Modelled from the claim's words, for comparison: the latest message
with ties broken by HIGHEST id. -/
def specLastMessage (db : DB) (sid : Nat) : Option Message :=
  latestBy (fun m => m.id) ((messagesOf db sid).filter
    (fun m => (messagesOf db sid).all (fun x => x.createdAt ≤ m.createdAt)))

/-! ## Contact rollups (routes/conversations.js, GET /api/conversations/contacts) -/

/-- The sessions joined to a contact under the tenant. -/
def sessionsOf (db : DB) (cid contactId : Nat) : List Session :=
  db.sessions.filter (fun s => s.contactId == contactId && s.companyId == cid)

/-- Messages of the contact's sessions under the tenant (the correlated
subqueries' JOIN). -/
def contactMessages (db : DB) (cid contactId : Nat) : List Message :=
  db.messages.filter (fun m => (sessionsOf db cid contactId).any (fun s => s.id == m.sessionId))

structure ContactRollup where
  contactId : Nat
  contactName : String
  contactCreatedAt : Nat
  sessionCount : Nat
  activeSessions : Nat
  latestStatus : Option Int
  lastMessage : Option String
  lastMessageTime : Option Nat
  deriving Repr, DecidableEq

/-- One grouped row of the contacts listing: session count, the
`status IN (1, 2)` active count, the latest-session status and the
latest-message fields. -/
def contactRollup (db : DB) (cid : Nat) (ct : Contact) : ContactRollup :=
  let ss := sessionsOf db cid ct.id
  let latestSession := latestBy (fun s => s.createdAt) ss
  let lastM := latestBy (fun m => m.createdAt) (contactMessages db cid ct.id)
  { contactId := ct.id, contactName := ct.name, contactCreatedAt := ct.createdAt,
    sessionCount := ss.length,
    activeSessions := ss.countP (fun s => s.status == 1 || s.status == 2),
    latestStatus := latestSession.map (fun s => s.status),
    lastMessage := lastM.map (fun m => m.content),
    lastMessageTime := lastM.map (fun m => m.createdAt) }

/-- The ORDER BY key of the contacts listing:
`COALESCE(latest message time, contact created_at)`. -/
def contactSortKey (r : ContactRollup) : Nat :=
  match r.lastMessageTime with
  | some t => t
  | none => r.contactCreatedAt

/-- The (unpaginated) contacts listing: contacts with at least one
session under the tenant, optionally filtered, rolled up and sorted by
the COALESCE key descending. -/
def contactsListingAll (db : DB) (cid : Nat) (search : Option String) (status : Option Int) :
    List ContactRollup :=
  let eligible := db.contacts.filter (fun ct =>
    (db.sessions.any (fun s => s.contactId == ct.id && s.companyId == cid)) &&
    (match search with
     | some q => ilikeContains q ct.name || ilikeContains q ct.phoneNumber ||
         ilikeContains q ct.email
     | none => true) &&
    (match status with
     | some st => db.sessions.any (fun s =>
         s.contactId == ct.id && s.companyId == cid && s.status == st)
     | none => true))
  sortBy (fun a b => decide (contactSortKey b ≤ contactSortKey a))
    (eligible.map (contactRollup db cid))

/-- Modelled from the claim's words, for comparison: active sessions are
those with status in {0, 1, 2}. -/
def specActiveCount (db : DB) (cid contactId : Nat) : Nat :=
  (sessionsOf db cid contactId).countP
    (fun s => s.status == 0 || s.status == 1 || s.status == 2)

/-- Modelled from the claim's words, for comparison: the sort key is the
MOST RECENT of (latest message time, contact creation time). -/
def specSortKey (r : ContactRollup) : Nat :=
  match r.lastMessageTime with
  | some t => max t r.contactCreatedAt
  | none => r.contactCreatedAt

/-! ## By-id detail reads (tenant-isolation surface of C1) -/

structure SessionDetail where
  sessionId : Nat
  companyId : Nat
  status : Int
  companyName : Option String
  messageCount : Nat
  deriving Repr, DecidableEq

/-- `GET /api/conversations/:sessionId` and `GET /api/sessions/:id`: the
query filters by `s.id = $1` only — no tenant condition and no tenant
parameter at all. -/
def sessionDetailsRead (db : DB) (sid : Nat) : Option SessionDetail :=
  (db.sessions.find? (fun s => s.id == sid)).map fun s =>
    { sessionId := s.id, companyId := s.companyId, status := s.status,
      companyName := (db.companies.find? (fun c => c.id == s.companyId)).map (fun c => c.name),
      messageCount := msgCount db s.id }

/-- `GET /api/leads/:id`: filters by `l.id = $1` only. -/
def leadDetailsRead (db : DB) (lid : Nat) : Option Lead :=
  db.leads.find? (fun l => l.id == lid)

/-- `GET /api/stock/:id`: filters by `id = $1` only. -/
def stockDetailsRead (db : DB) (vid : Nat) : Option StockItem :=
  db.stock.find? (fun v => v.id == vid)

/-! ## Example databases used by witnesses and counterexamples -/

def emptyDB : DB :=
  { companies := [], contacts := [], contactCompany := [], sessions := [],
    messages := [], leads := [], transferred := [], stock := [], knowledge := [],
    testMetrics := [] }

/-- Two tenants; every data row belongs to tenant 2 ("B"). -/
def exDB1 : DB :=
  { emptyDB with
    companies := [⟨1, "A"⟩, ⟨2, "B"⟩],
    sessions := [⟨10, 2, 5, 1, 50⟩],
    leads := [⟨3, 2, 5, "n", "e", "p", "l", "src", "ch", 0, 10⟩],
    stock := [⟨7, "B", "VW", "Golf", "v", "AA-01", "VIN1", "car", "t", "Porto", 100, 5⟩] }

/-- One tenant, one contact named "Ana", one session. -/
def exDB4 : DB :=
  { emptyDB with
    companies := [⟨1, "A"⟩],
    contacts := [⟨9, "Ana", "912", "ana@x.pt", 20⟩],
    sessions := [⟨70, 1, 9, 0, 30⟩] }

/-- Contact 5 (created at 100) has a status-0 session with a message at
time 50; contact 6 (created at 40) has a status-3 session with a message
at time 60. -/
def exDB7 : DB :=
  { emptyDB with
    companies := [⟨1, "A"⟩],
    contacts := [⟨5, "C5", "p5", "e5", 100⟩, ⟨6, "C6", "p6", "e6", 40⟩],
    sessions := [⟨50, 1, 5, 0, 10⟩, ⟨60, 1, 6, 3, 20⟩],
    messages := [⟨1, 50, 1, 0, "m1", 50⟩, ⟨2, 60, 1, 1, "m2", 60⟩] }

/-- One session with two messages sharing the same `created_at`. -/
def exDB8 : DB :=
  { emptyDB with
    companies := [⟨1, "A"⟩],
    sessions := [⟨1, 1, 9, 0, 5⟩],
    messages := [⟨1, 1, 1, 0, "first", 10⟩, ⟨2, 1, 1, 1, "second", 10⟩] }

/-! # Helper lemmas -/

theorem insertBy_perm (le : α → α → Bool) (a : α) :
    ∀ l : List α, List.Perm (insertBy le a l) (a :: l)
  | [] => List.Perm.refl _
  | b :: bs => by
    unfold insertBy
    by_cases h : le a b = true
    · rw [if_pos h]
    · rw [if_neg h]
      exact ((insertBy_perm le a bs).cons b).trans (List.Perm.swap a b bs)

theorem sortBy_perm (le : α → α → Bool) : ∀ l : List α, List.Perm (sortBy le l) l
  | [] => List.Perm.refl _
  | a :: as =>
    ((insertBy_perm le a (sortBy le as)).trans ((sortBy_perm le as).cons a))

theorem mem_insertBy (le : α → α → Bool) (a x : α) (l : List α) :
    x ∈ insertBy le a l ↔ x = a ∨ x ∈ l := by
  rw [(insertBy_perm le a l).mem_iff, List.mem_cons]

theorem mem_sortBy (le : α → α → Bool) (x : α) (l : List α) :
    x ∈ sortBy le l ↔ x ∈ l :=
  (sortBy_perm le l).mem_iff

theorem insertBy_pairwise (le : α → α → Bool)
    (htot : ∀ a b, le a b = false → le b a = true)
    (htrans : ∀ a b c, le a b = true → le b c = true → le a c = true)
    (a : α) (l : List α) (hl : l.Pairwise (fun x y => le x y = true)) :
    (insertBy le a l).Pairwise (fun x y => le x y = true) := by
  induction l with
  | nil => simp [insertBy]
  | cons b bs ih =>
    rw [List.pairwise_cons] at hl
    obtain ⟨hb, hbs⟩ := hl
    unfold insertBy
    by_cases h : le a b = true
    · rw [if_pos h]
      refine List.Pairwise.cons ?_ (List.Pairwise.cons hb hbs)
      intro x hx
      rcases List.mem_cons.mp hx with rfl | hx'
      · exact h
      · exact htrans a b x h (hb x hx')
    · rw [if_neg h]
      have h' : le b a = true := htot a b (by simpa using h)
      refine List.Pairwise.cons ?_ (ih hbs)
      intro x hx
      rcases (mem_insertBy le a x bs).mp hx with rfl | hx'
      · exact h'
      · exact hb x hx'

theorem sortBy_pairwise (le : α → α → Bool)
    (htot : ∀ a b, le a b = false → le b a = true)
    (htrans : ∀ a b c, le a b = true → le b c = true → le a c = true) :
    ∀ l : List α, (sortBy le l).Pairwise (fun x y => le x y = true)
  | [] => List.Pairwise.nil
  | a :: as =>
    insertBy_pairwise le htot htrans a (sortBy le as) (sortBy_pairwise le htot htrans as)

theorem latestBy_eq_none (key : α → Nat) :
    ∀ l : List α, latestBy key l = none ↔ l = [] := by
  intro l
  cases l with
  | nil => simp [latestBy]
  | cons a as =>
    simp only [latestBy]
    cases latestBy key as with
    | none => simp
    | some m =>
      by_cases h : key a < key m
      · simp [h]
      · simp [h]

theorem latestBy_mem (key : α → Nat) :
    ∀ (l : List α) (m : α), latestBy key l = some m → m ∈ l := by
  intro l
  induction l with
  | nil => intro m h; simp [latestBy] at h
  | cons a as ih =>
    intro m h
    unfold latestBy at h
    cases hr : latestBy key as with
    | none =>
      rw [hr] at h
      simp only [Option.some.injEq] at h
      simp [← h]
    | some m' =>
      rw [hr] at h
      dsimp only at h
      by_cases hk : key a < key m'
      · rw [if_pos hk] at h
        simp only [Option.some.injEq] at h
        exact List.mem_cons_of_mem a (h ▸ ih m' hr)
      · rw [if_neg hk] at h
        simp only [Option.some.injEq] at h
        simp [← h]

theorem latestBy_le (key : α → Nat) :
    ∀ (l : List α) (m : α), latestBy key l = some m → ∀ x ∈ l, key x ≤ key m := by
  intro l
  induction l with
  | nil => intro m h; simp [latestBy] at h
  | cons a as ih =>
    intro m h x hx
    unfold latestBy at h
    cases hr : latestBy key as with
    | none =>
      rw [hr] at h
      simp only [Option.some.injEq] at h
      have : as = [] := (latestBy_eq_none key as).mp hr
      subst this
      rcases List.mem_cons.mp hx with rfl | hx'
      · exact h ▸ le_refl _
      · simp at hx'
    | some m' =>
      rw [hr] at h
      dsimp only at h
      by_cases hk : key a < key m'
      · rw [if_pos hk] at h
        simp only [Option.some.injEq] at h
        subst h
        rcases List.mem_cons.mp hx with rfl | hx'
        · exact le_of_lt hk
        · exact ih m' hr x hx'
      · rw [if_neg hk] at h
        simp only [Option.some.injEq] at h
        subst h
        rcases List.mem_cons.mp hx with rfl | hx'
        · exact le_refl _
        · exact (ih m' hr x hx').trans (le_of_not_lt hk)

theorem find_map_setStatus (l : List Session) (sid : Nat) (n : Int) :
    (l.map fun s => if s.id == sid then { s with status := n } else s).find?
        (fun s => s.id == sid)
      = (l.find? (fun s => s.id == sid)).map (fun s => { s with status := n }) := by
  induction l with
  | nil => rfl
  | cons a l ih =>
    by_cases h : a.id = sid
    · simp [List.find?_cons, h]
    · have hb : (a.id == sid) = false := by simpa using h
      simp only [List.map_cons, hb, if_false, Bool.false_eq_true, List.find?_cons, cond_false, ih]

/-! # Claim theorems -/

/-- C6: the guard has exactly three behaviours: reject a missing or
literal null/undefined identifier, reject an unparseable identifier, or
attach the parsed integer. -/
theorem c6_tenant_guard_trichotomy (p q b : Option String) :
    (candidateCompanyId p q b = none ∧
      requireCompanyAccess p q b = .badRequest "Valid Company ID required") ∨
    (∃ s, candidateCompanyId p q b = some s ∧ (s = "null" ∨ s = "undefined") ∧
      requireCompanyAccess p q b = .badRequest "Valid Company ID required") ∨
    (∃ s, candidateCompanyId p q b = some s ∧ s ≠ "null" ∧ s ≠ "undefined" ∧
      jsParseInt s = none ∧
      requireCompanyAccess p q b = .badRequest "Company ID must be a valid number") ∨
    (∃ s n, candidateCompanyId p q b = some s ∧ s ≠ "null" ∧ s ≠ "undefined" ∧
      jsParseInt s = some n ∧ requireCompanyAccess p q b = .ok n) := by
  unfold requireCompanyAccess
  cases h : candidateCompanyId p q b with
  | none => exact Or.inl ⟨rfl, rfl⟩
  | some s =>
    by_cases hnull : s = "null" ∨ s = "undefined"
    · refine Or.inr (Or.inl ⟨s, rfl, hnull, ?_⟩)
      simp [hnull]
    · push_neg at hnull
      cases hp : jsParseInt s with
      | none =>
        refine Or.inr (Or.inr (Or.inl ⟨s, rfl, hnull.1, hnull.2, hp, ?_⟩))
        simp [hnull.1, hnull.2, hp]
      | some n =>
        refine Or.inr (Or.inr (Or.inr ⟨s, n, rfl, hnull.1, hnull.2, hp, ?_⟩))
        simp [hnull.1, hnull.2, hp]

/-- C3: the growth percentage equals `(today-yesterday)/yesterday*100`
when `yesterday > 0`, else `100` when `today > 0`, else `0`, after
two-decimal rounding; with the three documented examples. -/
theorem c3_growth_policy :
    (∀ today yesterday : Nat, 0 < yesterday →
      realtimeGrowth today yesterday =
        roundTwo (((today : Rat) - (yesterday : Rat)) / (yesterday : Rat) * 100)) ∧
    (∀ today : Nat, realtimeGrowth today 0 = if 0 < today then 100 else 0) ∧
    realtimeGrowth 120 100 = 20 ∧ realtimeGrowth 5 0 = 100 ∧ realtimeGrowth 0 0 = 0 := by
  refine ⟨?_, ?_, ?_, ?_, ?_⟩
  · intro today yesterday h
    simp [realtimeGrowth, growthRaw, h]
  · intro today
    by_cases h : 0 < today
    · simp only [realtimeGrowth, growthRaw, h, if_true, if_false, Nat.lt_irrefl]
      norm_num [roundTwo, jsMathRound]
    · simp only [realtimeGrowth, growthRaw, h, if_false, Nat.lt_irrefl]
      norm_num [roundTwo, jsMathRound]
  · norm_num [realtimeGrowth, growthRaw, roundTwo, jsMathRound]
  · norm_num [realtimeGrowth, growthRaw, roundTwo, jsMathRound]
  · norm_num [realtimeGrowth, growthRaw, roundTwo, jsMathRound]

/-- Witness for C3 at `today = 120`, `yesterday = 100`. -/
theorem c3_growth_policy_witness :
    realtimeGrowth 120 100 =
      roundTwo ((((120 : Nat) : Rat) - ((100 : Nat) : Rat)) / ((100 : Nat) : Rat) * 100) :=
  c3_growth_policy.1 120 100 (by norm_num)

/-- C5: a non-integer or out-of-range status is rejected with BadRequest
and the state is unchanged; a success outcome implies the status was an
integer in [0,4]; and for an existing session, an integral status in
[0,4] is stored and durably observable on a subsequent read. -/
theorem c5_session_status_update (db : DB) (sid : Nat) :
    (∀ q : Rat, (¬ q.den = 1 ∨ q < 0 ∨ 4 < q) →
      updateSessionStatus db sid (.num q) =
        (.badRequest "Status must be an integer between 0 and 4", db)) ∧
    (∀ q : Rat, ∀ i : Nat, ∀ st : Int, ∀ db' : DB,
      updateSessionStatus db sid (.num q) = (.ok i st, db') →
      q.den = 1 ∧ 0 ≤ q ∧ q ≤ 4) ∧
    (db.sessions.any (fun s => s.id == sid) = true →
      ∀ n : Int, 0 ≤ n → n ≤ 4 →
        ∃ db', updateSessionStatus db sid (.num (n : Rat)) = (.ok sid n, db') ∧
          readSessionStatus db' sid = some n) := by
  refine ⟨?_, ?_, ?_⟩
  · intro q h
    simp [updateSessionStatus, h]
  · intro q i st db' h
    by_cases hv : ¬ q.den = 1 ∨ q < 0 ∨ 4 < q
    · simp [updateSessionStatus, hv] at h
    · push_neg at hv
      exact ⟨hv.1, hv.2.1, hv.2.2⟩
  · intro hmem n h0 h4
    have hv : ¬ (¬ (n : Rat).den = 1 ∨ (n : Rat) < 0 ∨ 4 < (n : Rat)) := by
      push_neg
      refine ⟨Rat.den_intCast n, by exact_mod_cast h0, by exact_mod_cast h4⟩
    refine ⟨{ db with sessions :=
        db.sessions.map fun s => if s.id == sid then { s with status := n } else s }, ?_, ?_⟩
    · simp only [updateSessionStatus]
      rw [if_neg hv, if_pos hmem, Rat.num_intCast]
    · have hsome : (db.sessions.find? (fun s => s.id == sid)).isSome = true := by
        rw [List.find?_isSome]
        rcases List.any_eq_true.mp hmem with ⟨s, hs, hid⟩
        exact ⟨s, hs, hid⟩
      rcases Option.isSome_iff_exists.mp hsome with ⟨s, hs⟩
      show readSessionStatus _ sid = some n
      unfold readSessionStatus
      rw [find_map_setStatus, hs]
      rfl

/-- Witness for C5: on a one-session database, status 7 is rejected with
the state unchanged, and status 3 is stored and read back. -/
theorem c5_session_status_update_witness :
    (updateSessionStatus { emptyDB with sessions := [⟨40, 1, 5, 0, 10⟩] } 40 (.num 7) =
      (.badRequest "Status must be an integer between 0 and 4",
        { emptyDB with sessions := [⟨40, 1, 5, 0, 10⟩] })) ∧
    (∃ db', updateSessionStatus { emptyDB with sessions := [⟨40, 1, 5, 0, 10⟩] } 40
        (.num ((3 : Int) : Rat)) = (.ok 40 3, db') ∧
      readSessionStatus db' 40 = some 3) := by
  constructor
  · exact (c5_session_status_update _ 40).1 7 (by norm_num)
  · exact (c5_session_status_update _ 40).2.2 (by decide) 3 (by norm_num) (by norm_num)

/-- C9: with at least one dependent conversation/lead/session row the
delete fails with Conflict carrying the per-type counts and the state is
unchanged; with zero dependents on an existing tenant it succeeds and the
subsequent read finds nothing. -/
theorem c9_delete_company (db : DB) (cid : Nat) :
    (∀ conv ld ss : Nat, dependentCounts db cid = (conv, ld, ss) → 0 < conv + ld + ss →
      deleteCompany db cid = (.conflict conv ld ss, db)) ∧
    (dependentCounts db cid = (0, 0, 0) →
      db.companies.any (fun co => co.id == cid) = true →
      (deleteCompany db cid).1 = .ok ∧ getCompany (deleteCompany db cid).2 cid = none) := by
  constructor
  · intro conv ld ss h hpos
    simp [deleteCompany, h, hpos]
  · intro h hex
    have hdel : deleteCompany db cid =
        (.ok, { db with companies := db.companies.filter (fun co => !(co.id == cid)) }) := by
      simp [deleteCompany, h, hex]
    rw [hdel]
    refine ⟨rfl, ?_⟩
    unfold getCompany
    apply List.find?_eq_none.mpr
    intro co hco
    have hne := (List.mem_filter.mp hco).2
    simp only [Bool.not_eq_true'] at hne
    simp [hne]

/-- Witness for C9: a tenant with one dependent lead is Conflict-blocked;
a dependent-free tenant is deleted and no longer retrievable. -/
theorem c9_delete_company_witness :
    (deleteCompany
        { emptyDB with
            companies := [⟨1, "Acme"⟩]
            leads := [⟨3, 1, 5, "n", "e", "p", "l", "src", "ch", 0, 10⟩] } 1 =
      (.conflict 0 1 0,
        { emptyDB with
            companies := [⟨1, "Acme"⟩]
            leads := [⟨3, 1, 5, "n", "e", "p", "l", "src", "ch", 0, 10⟩] })) ∧
    ((deleteCompany { emptyDB with companies := [⟨1, "Acme"⟩] } 1).1 = .ok ∧
      getCompany (deleteCompany { emptyDB with companies := [⟨1, "Acme"⟩] } 1).2 1 = none) := by
  constructor
  · exact (c9_delete_company _ 1).1 0 1 0 (by decide) (by decide)
  · exact (c9_delete_company _ 1).2 (by decide) (by decide)

/-- C10: when the tenant has any `test_metrics` rows the handler returns
(at most `monthsBack` of) those rows and the real aggregation never
runs; the real aggregation runs exactly when the tenant has none. -/
theorem c10_test_metrics_shadowing (db : DB) (cid monthsBack currentMonth : Nat)
    (hm : 1 ≤ monthsBack) :
    (db.testMetrics.filter (fun r => r.companyId == cid) ≠ [] →
      ∃ rows, historicalMetrics db cid monthsBack currentMonth = .fromTest rows ∧
        rows ≠ [] ∧ rows.length ≤ monthsBack ∧
        ∀ r ∈ rows, r ∈ db.testMetrics ∧ r.companyId = cid) ∧
    (db.testMetrics.filter (fun r => r.companyId == cid) = [] →
      historicalMetrics db cid monthsBack currentMonth =
        .fromReal (realMonthlyAggregates db cid currentMonth monthsBack)) := by
  constructor
  · intro hne
    have hlen : 0 < ((sortBy (fun a b => decide (a.month ≤ b.month))
        (db.testMetrics.filter (fun r => r.companyId == cid))).take monthsBack).length := by
      rw [List.length_take,
        (sortBy_perm _ (db.testMetrics.filter (fun r => r.companyId == cid))).length_eq]
      exact lt_min hm (List.length_pos.mpr hne)
    refine ⟨(sortBy (fun a b => decide (a.month ≤ b.month))
        (db.testMetrics.filter (fun r => r.companyId == cid))).take monthsBack,
      ?_, ?_, ?_, ?_⟩
    · unfold historicalMetrics
      rw [if_pos hlen]
    · exact List.length_pos.mp hlen
    · exact (List.length_take _ _).trans_le (min_le_left _ _)
    · intro r hr
      have hr' : r ∈ db.testMetrics.filter (fun x => x.companyId == cid) :=
        (mem_sortBy _ _ _).mp (List.mem_of_mem_take hr)
      obtain ⟨hmem, heq⟩ := List.mem_filter.mp hr'
      exact ⟨hmem, by simpa using heq⟩
  · intro hempty
    unfold historicalMetrics
    rw [hempty]
    simp [sortBy]

/-- Witness for C10: one tenant with a test row is served from
`test_metrics`; a tenant without test rows gets the real aggregation. -/
theorem c10_test_metrics_shadowing_witness :
    (∃ rows, historicalMetrics
        { emptyDB with testMetrics := [⟨1, 3, 10, 2, 5, 40⟩] } 1 6 24 = .fromTest rows ∧
        rows ≠ [] ∧ rows.length ≤ 6 ∧
        ∀ r ∈ rows, r ∈ [(⟨1, 3, 10, 2, 5, 40⟩ : TestMetricRow)] ∧ r.companyId = 1) ∧
    historicalMetrics { emptyDB with testMetrics := [⟨1, 3, 10, 2, 5, 40⟩] } 2 6 24 =
      .fromReal (realMonthlyAggregates
        { emptyDB with testMetrics := [⟨1, 3, 10, 2, 5, 40⟩] } 2 24 6) := by
  constructor
  · exact (c10_test_metrics_shadowing _ 1 6 24 (by norm_num)).1 (by decide)
  · exact (c10_test_metrics_shadowing _ 2 6 24 (by norm_num)).2 (by decide)

/-- C1: the by-id detail reads (session details, lead details, vehicle
details) filter only by the row id — they take no tenant input at all —
so a request whose guard resolved tenant 1 still retrieves tenant-2
rows. -/
theorem c1_detail_reads_cross_tenant :
    requireCompanyAccess none (some "1") none = .ok 1 ∧
    (sessionDetailsRead exDB1 10).map (fun d => d.companyId) = some 2 ∧
    (leadDetailsRead exDB1 3).map (fun l => l.companyId) = some 2 ∧
    (stockDetailsRead exDB1 7).map (fun v => v.empresa) = some "B" := by
  decide

/-- C2: the count queries of the leads and conversations listings are
not parameter-aligned with their page queries.  The leads count query is
malformed for EVERY filter combination (the `slice(0, paramIndex - 2)`
keeps `limit` and the single-occurrence `replace` renumbers only the
first placeholder), and the conversations count query is malformed
whenever `search` is present; only the conversations no-search cases
agree. -/
theorem c2_count_query_parameter_mismatch :
    (pgAccepts (leadsPageQuery 1 20 0 none none) = true ∧
      pgAccepts (leadsCountQuery 1 20 0 none none) = false) ∧
    (pgAccepts (leadsPageQuery 1 20 0 (some 2) none) = true ∧
      pgAccepts (leadsCountQuery 1 20 0 (some 2) none) = false) ∧
    (pgAccepts (leadsPageQuery 1 20 0 none (some "jo")) = true ∧
      pgAccepts (leadsCountQuery 1 20 0 none (some "jo")) = false) ∧
    (pgAccepts (leadsPageQuery 1 20 0 (some 2) (some "jo")) = true ∧
      pgAccepts (leadsCountQuery 1 20 0 (some 2) (some "jo")) = false) ∧
    (pgAccepts (convPageQuery 1 20 0 (some "jo") none) = true ∧
      pgAccepts (convCountQuery 1 20 0 (some "jo") none) = false) ∧
    (pgAccepts (convPageQuery 1 20 0 (some "jo") (some 2)) = true ∧
      pgAccepts (convCountQuery 1 20 0 (some "jo") (some 2)) = false) ∧
    (pgAccepts (convCountQuery 1 20 0 none (some 2)) = true ∧
      pgAccepts (convCountQuery 1 20 0 none none) = true) := by
  decide

/-- C4 (amended): every dedicated /api/search/* endpoint rejects a
search string of trimmed length below 2 before consulting the database
(the response is a constant, independent of the database state); the
listing endpoints' optional search filters perform no such check — see
the counterexample theorem. -/
theorem c4_short_search_rejected (s : String) (h : (jsTrim s).length < 2)
    (db : DB) (companyId : Option Nat) (cid limit : Nat) (st : Option Int)
    (leadSource channel : Option String) :
    searchContacts db (some s) companyId limit =
      .badRequest "Search query must be at least 2 characters long" ∧
    searchConversationsRoute db (some s) cid limit st =
      .badRequest "Search query must be at least 2 characters long" ∧
    searchLeadsRoute db (some s) cid limit leadSource channel =
      .badRequest "Search query must be at least 2 characters long" ∧
    searchStockRoute db (some s) cid limit =
      .badRequest "Search query must be at least 2 characters long" ∧
    searchGlobalRoute db (some s) cid =
      .badRequest "Search query must be at least 2 characters long" ∧
    searchTooShort (some s) = true := by
  have hc : (s == "" || decide ((jsTrim s).length < 2)) = true := by
    simp [h]
  refine ⟨?_, ?_, ?_, ?_, ?_, ?_⟩
  · simp only [searchContacts]
    rw [if_pos hc]
  · simp only [searchConversationsRoute]
    rw [if_pos hc]
  · simp only [searchLeadsRoute]
    rw [if_pos hc]
  · simp only [searchStockRoute]
    rw [if_pos hc]
  · simp only [searchGlobalRoute]
    rw [if_pos hc]
  · simp [searchTooShort, h]

/-- Witness for C4 (amended) at the one-character search "a". -/
theorem c4_short_search_rejected_witness :
    searchContacts emptyDB (some "a") none 20 =
      .badRequest "Search query must be at least 2 characters long" ∧
    searchConversationsRoute emptyDB (some "a") 1 20 none =
      .badRequest "Search query must be at least 2 characters long" ∧
    searchLeadsRoute emptyDB (some "a") 1 20 none none =
      .badRequest "Search query must be at least 2 characters long" ∧
    searchStockRoute emptyDB (some "a") 1 20 =
      .badRequest "Search query must be at least 2 characters long" ∧
    searchGlobalRoute emptyDB (some "a") 1 =
      .badRequest "Search query must be at least 2 characters long" ∧
    searchTooShort (some "a") = true :=
  c4_short_search_rejected "a" (by decide) emptyDB none 1 20 none none none

/-- C4 counterexample: the conversations listing — a search-capable
endpoint named by the claim — applies a one-character search term with
no rejection: it answers 200 with rows read from the database (so a
query is issued; the result differs between database states). -/
theorem c4_counterexample_listing_short_search :
    (jsTrim "a").length < 2 ∧
    conversationsListing exDB4 1 1 20 (some "a") none =
      .ok [{ sessionId := 70, status := 0, sessionCreatedAt := 30, contactId := some 9,
             lastMessage := none, totalMessages := 0 }] ∧
    conversationsListing exDB4 1 1 20 (some "a") none ≠
      conversationsListing emptyDB 1 1 20 (some "a") none := by
  decide

/-- C7 counterexample: on `exDB7` the produced `active_sessions` of
contact 5 is 0 while the claim's status-set {0,1,2} counts 1, and the
produced order `[6, 5]` is not descending in the claim's
most-recent-of sort key. -/
theorem c7_counterexample_rollup :
    ((contactsListingAll exDB7 1 none none).map (fun r => r.contactId) = [6, 5]) ∧
    (∃ r ∈ contactsListingAll exDB7 1 none none,
      r.contactId = 5 ∧ r.activeSessions = 0 ∧ specActiveCount exDB7 1 5 = 1) ∧
    ¬ (contactsListingAll exDB7 1 none none).Pairwise
        (fun a b => specSortKey b ≤ specSortKey a) := by
  decide

/-- C7 (amended): the contacts listing consists of exactly one rollup row
per contact having a session under the tenant; each row's session count,
`status IN (1,2)` active count, latest-session status and latest-message
fields are as computed by `contactRollup`; rows are sorted descending by
`COALESCE(latest message time, contact creation time)`. -/
theorem c7_contact_rollups_amended (db : DB) (cid : Nat) :
    (∀ r ∈ contactsListingAll db cid none none,
      ∃ ct ∈ db.contacts, sessionsOf db cid ct.id ≠ [] ∧ r = contactRollup db cid ct) ∧
    (∀ ct ∈ db.contacts, sessionsOf db cid ct.id ≠ [] →
      contactRollup db cid ct ∈ contactsListingAll db cid none none) ∧
    (∀ ct : Contact,
      (contactRollup db cid ct).sessionCount = (sessionsOf db cid ct.id).length ∧
      (contactRollup db cid ct).activeSessions =
        (sessionsOf db cid ct.id).countP (fun s => s.status == 1 || s.status == 2) ∧
      (∀ st : Int, (contactRollup db cid ct).latestStatus = some st →
        ∃ x ∈ sessionsOf db cid ct.id, x.status = st ∧
          ∀ y ∈ sessionsOf db cid ct.id, y.createdAt ≤ x.createdAt) ∧
      (∀ c : String, (contactRollup db cid ct).lastMessage = some c →
        ∃ m ∈ contactMessages db cid ct.id, m.content = c ∧
          ∀ y ∈ contactMessages db cid ct.id, y.createdAt ≤ m.createdAt)) ∧
    (contactsListingAll db cid none none).Pairwise
      (fun a b => contactSortKey b ≤ contactSortKey a) := by
  have hany : ∀ ctid : Nat,
      (db.sessions.any (fun s => s.contactId == ctid && s.companyId == cid)) = true ↔
        sessionsOf db cid ctid ≠ [] := by
    intro ctid
    rw [List.any_eq_true]
    constructor
    · rintro ⟨s, hs, hp⟩ hnil
      have hmem : s ∈ sessionsOf db cid ctid := List.mem_filter.mpr ⟨hs, hp⟩
      rw [hnil] at hmem
      simp at hmem
    · intro hne
      rcases List.exists_mem_of_ne_nil _ hne with ⟨s, hs⟩
      obtain ⟨hs', hp⟩ := List.mem_filter.mp hs
      exact ⟨s, hs', hp⟩
  have hmemiff : ∀ r : ContactRollup,
      r ∈ contactsListingAll db cid none none ↔
        ∃ ct, (ct ∈ db.contacts ∧
          (db.sessions.any (fun s => s.contactId == ct.id && s.companyId == cid)) = true) ∧
          contactRollup db cid ct = r := by
    intro r
    unfold contactsListingAll
    rw [mem_sortBy, List.mem_map]
    constructor
    · rintro ⟨ct, hct, hr⟩
      obtain ⟨hm, hp⟩ := List.mem_filter.mp hct
      refine ⟨ct, ⟨hm, ?_⟩, hr⟩
      simpa using hp
    · rintro ⟨ct, ⟨hm, hp⟩, hr⟩
      refine ⟨ct, List.mem_filter.mpr ⟨hm, ?_⟩, hr⟩
      simpa using hp
  refine ⟨?_, ?_, ?_, ?_⟩
  · intro r hr
    rcases (hmemiff r).mp hr with ⟨ct, ⟨hm, hp⟩, hr'⟩
    exact ⟨ct, hm, (hany ct.id).mp hp, hr'.symm⟩
  · intro ct hm hne
    exact (hmemiff _).mpr ⟨ct, ⟨hm, (hany ct.id).mpr hne⟩, rfl⟩
  · intro ct
    refine ⟨rfl, rfl, ?_, ?_⟩
    · intro st hst
      rcases Option.map_eq_some'.mp hst with ⟨x, hx, hxs⟩
      exact ⟨x, latestBy_mem _ _ _ hx, hxs,
        fun y hy => latestBy_le _ _ _ hx y hy⟩
    · intro c hc
      rcases Option.map_eq_some'.mp hc with ⟨m, hm, hmc⟩
      exact ⟨m, latestBy_mem _ _ _ hm, hmc,
        fun y hy => latestBy_le _ _ _ hm y hy⟩
  · have hs := sortBy_pairwise (fun a b => decide (contactSortKey b ≤ contactSortKey a))
      (fun a b hab => decide_eq_true (le_of_not_le (of_decide_eq_false hab)))
      (fun a b c hab hbc => decide_eq_true
        ((of_decide_eq_true hbc).trans (of_decide_eq_true hab)))
      ((db.contacts.filter (fun ct =>
        (db.sessions.any (fun s => s.contactId == ct.id && s.companyId == cid)) &&
        (match (none : Option String) with
         | some q => ilikeContains q ct.name || ilikeContains q ct.phoneNumber ||
             ilikeContains q ct.email
         | none => true) &&
        (match (none : Option Int) with
         | some st => db.sessions.any (fun s =>
             s.contactId == ct.id && s.companyId == cid && s.status == st)
         | none => true))).map (contactRollup db cid))
    exact hs.imp (fun hxy => of_decide_eq_true hxy)

/-- Witness for C7 (amended): contact 5's rollup row is listed on
`exDB7`. -/
theorem c7_contact_rollups_amended_witness :
    contactRollup exDB7 1 ⟨5, "C5", "p5", "e5", 100⟩ ∈ contactsListingAll exDB7 1 none none :=
  (c7_contact_rollups_amended exDB7 1).2.1 ⟨5, "C5", "p5", "e5", 100⟩ (by decide) (by decide)

/-- C8 counterexample: with two messages of the same session sharing one
`created_at`, the enrichment returns the earlier-stored message (id 1),
not the claim's highest-id tie-break (id 2). -/
theorem c8_counterexample_tiebreak :
    ((lastMsg exDB8 1).map (fun m => m.id) = some 1) ∧
    ((specLastMessage exDB8 1).map (fun m => m.id) = some 2) ∧
    lastMsg exDB8 1 ≠ specLastMessage exDB8 1 := by
  decide

/-- C8 (amended): given distinct session ids, the conversations listing
emits each session at most once (no duplicated session rows), each row's
message count equals the number of the session's messages, and the
attached last message is one of the session's messages of maximal
creation time (no id tie-break is applied). -/
theorem c8_latest_message_enrichment_amended (db : DB) (cid page limit : Nat)
    (hpk : (db.sessions.map (fun s => s.id)).Nodup) (rows : List ConvRow)
    (hrows : conversationsListing db cid page limit none none = .ok rows) :
    (rows.map (fun r => r.sessionId)).Nodup ∧
    (∀ r ∈ rows, r.totalMessages = (messagesOf db r.sessionId).length ∧
      (∀ m, r.lastMessage = some m → m ∈ messagesOf db r.sessionId ∧
        ∀ x ∈ messagesOf db r.sessionId, x.createdAt ≤ m.createdAt) ∧
      (r.lastMessage = none → messagesOf db r.sessionId = [])) := by
  unfold conversationsListing at hrows
  simp only [RouteResult.ok.injEq] at hrows
  subst hrows
  constructor
  · rw [List.map_take, List.map_drop, List.map_map]
    refine List.Nodup.sublist ((List.take_sublist _ _).trans (List.drop_sublist _ _)) ?_
    show ((sortBy (fun a b => decide (a.id ≤ b.id))
        (db.sessions.filter _)).map (fun s => s.id)).Nodup
    refine ((List.Perm.map _ (sortBy_perm _ _)).nodup_iff).mpr ?_
    exact List.Nodup.sublist (List.Sublist.map _ (List.filter_sublist _)) hpk
  · intro r hr
    have hr1 := List.mem_of_mem_drop (List.mem_of_mem_take hr)
    rcases List.mem_map.mp hr1 with ⟨s, _, rfl⟩
    refine ⟨rfl, ?_, ?_⟩
    · intro m hm
      exact ⟨latestBy_mem _ _ _ hm, fun x hx => latestBy_le _ _ _ hm x hx⟩
    · intro hnone
      exact (latestBy_eq_none _ _).mp hnone

/-- Witness for C8 (amended) on `exDB8`. -/
theorem c8_latest_message_enrichment_amended_witness :
    (([(⟨1, 0, 5, none, some ⟨1, 1, 1, 0, "first", 10⟩, 2⟩ : ConvRow)].map
        (fun r => r.sessionId)).Nodup) ∧
    (∀ r ∈ [(⟨1, 0, 5, none, some ⟨1, 1, 1, 0, "first", 10⟩, 2⟩ : ConvRow)],
      r.totalMessages = (messagesOf exDB8 r.sessionId).length ∧
      (∀ m, r.lastMessage = some m → m ∈ messagesOf exDB8 r.sessionId ∧
        ∀ x ∈ messagesOf exDB8 r.sessionId, x.createdAt ≤ m.createdAt) ∧
      (r.lastMessage = none → messagesOf exDB8 r.sessionId = [])) :=
  c8_latest_message_enrichment_amended exDB8 1 1 20 (by decide) _ (by decide)

end Rita
